import Mathlib

/-!
Verification development for the MQTT connection-lifecycle manager of the
IoTGoMQTT repository (package mqtt, file src/mqtt/mqtt.go).

The Go source is embedded shallowly:

* configuration and client construction (CreateMQTTClient,
  initMQTTClientOptions) become pure functions over an explicit
  file-system/TLS oracle that stands for ioutil.ReadFile,
  tls.LoadX509KeyPair and x509.ParseCertificate;
* Publish and subscribe become functions that return a trace of the
  transport calls they issue;
* the reconnect machinery (connect, retryConnect, connectionLostHandler,
  Stop and the ticker goroutine started by retryConnect) becomes an
  event-step transition system over an explicit client state, where each
  atomic statement group of the Go code is one event; the number of live
  retry tickers is tracked by a counter, and a ticker iteration is split
  into its two statements (the connect call and the IsConnected check)
  so that callback interleavings of the Go runtime are representable.
-/

namespace IoTGoMQTT

/-- Immutable client configuration. Mirrors the fields of the Go MQTT
struct (mqtt.go lines 20-42) that CreateMQTTClient copies verbatim from
configuration.MQTTConfig (lines 124-140). The Go field named after the
topic root is called prefixStr here because its Go name is a Lean keyword. -/
structure MQTTConfig where
  host : String
  port : Nat
  prefixStr : String
  clientID : String
  sslEnabled : Bool
  username : String
  password : String
  caCertPath : String
  clientCertPath : String
  privateKeyPath : String
  keepAliveSec : Nat
  pingTimeoutSec : Nat
  subscriptionQos : Nat
  persistent : Bool
  order : Bool
  deriving DecidableEq, Repr

/-- getProtocol (mqtt.go lines 60-66): ssl when sslEnabled, else tcp. -/
def getProtocol (m : MQTTConfig) : String :=
  if m.sslEnabled then "ssl" else "tcp"

/-- Oracle for the file-system and TLS library calls made by
initMQTTClientOptions: readFile stands for ioutil.ReadFile on the CA path
(returning PEM bytes), loadKeyPair for tls.LoadX509KeyPair on the client
certificate/key paths (returning an opaque certificate handle), parseCert
for x509.ParseCertificate on the loaded certificate. -/
structure TLSOracle where
  readFile : String → Except String (List Nat)
  loadKeyPair : String → String → Except String Nat
  parseCert : Nat → Except String Nat

/-- The tls.Config value built at mqtt.go lines 80-104: rootCAsSet records
that x509.NewCertPool() was assigned to RootCAs, rootCAs the PEM blobs
appended to the pool, certificates the loaded client certificate handles. -/
structure TLSConfig where
  rootCAsSet : Bool
  rootCAs : List (List Nat)
  certificates : List Nat
  deriving DecidableEq, Repr

/-- The paho.ClientOptions fields that mqtt.go touches. Handler
registration is recorded as a flag per callback. -/
structure ClientOptions where
  username : Option String
  password : Option String
  brokers : List String
  tls : TLSConfig
  clientID : String
  cleanSession : Bool
  orderMatters : Bool
  keepAliveSec : Nat
  pingTimeoutSec : Nat
  autoReconnect : Bool
  connectionLostHandlerSet : Bool
  onConnectHandlerSet : Bool
  deriving DecidableEq, Repr

/-- paho.NewClientOptions() defaults (mqtt.go line 70): no credentials, no
brokers, empty TLS config, clean session, ordered delivery, 30 s
keep-alive, 10 s ping timeout, automatic reconnection enabled, no
callbacks registered. -/
def defaultClientOptions : ClientOptions :=
  { username := none
    password := none
    brokers := []
    tls := { rootCAsSet := false, rootCAs := [], certificates := [] }
    clientID := ""
    cleanSession := true
    orderMatters := true
    keepAliveSec := 30
    pingTimeoutSec := 10
    autoReconnect := true
    connectionLostHandlerSet := false
    onConnectHandlerSet := false }

/-- Credential section of initMQTTClientOptions (mqtt.go lines 70-77):
paho defaults, with username and password set only when non-empty. -/
def credentialOptions (c : MQTTConfig) : ClientOptions :=
  let o1 :=
    if c.username ≠ "" then { defaultClientOptions with username := some c.username }
    else defaultClientOptions
  if c.password ≠ "" then { o1 with password := some c.password } else o1

/-- CA-pool section of initMQTTClientOptions (mqtt.go lines 80-91): when a
CA path is configured, a fresh cert pool is assigned and the file is
read; a read error is silently ignored (the if err == nil guard) leaving
the pool empty, a successful read is appended to the pool. -/
def caPoolConfig (c : MQTTConfig) (fs : TLSOracle) : TLSConfig :=
  if c.caCertPath ≠ "" then
    match fs.readFile c.caCertPath with
    | Except.ok pemCerts =>
      { rootCAsSet := true, rootCAs := [pemCerts], certificates := [] }
    | Except.error _ => { rootCAsSet := true, rootCAs := [], certificates := [] }
  else { rootCAsSet := false, rootCAs := [], certificates := [] }

/-- Client-certificate section of initMQTTClientOptions (mqtt.go lines
92-104): when both certificate and key paths are configured, a load
failure or a parse failure of the leaf certificate is returned as an
error; on success the certificate is installed in the TLS config. -/
def tlsConfigResult (c : MQTTConfig) (fs : TLSOracle) : Except String TLSConfig :=
  if c.clientCertPath ≠ "" ∧ c.privateKeyPath ≠ "" then
    match fs.loadKeyPair c.clientCertPath c.privateKeyPath with
    | Except.error e => Except.error ("error loading client keypair: " ++ e)
    | Except.ok cert =>
      match fs.parseCert cert with
      | Except.error e => Except.error ("error parsing client certificate: " ++ e)
      | Except.ok _ => Except.ok { caPoolConfig c fs with certificates := [cert] }
  else Except.ok (caPoolConfig c fs)

/-- initMQTTClientOptions (mqtt.go lines 68-118): the credential and TLS
sections above, then the broker URL, TLS config, client id,
clean-session flag (negated persistence), ordering, keep-alive, ping
timeout, AutoReconnect(false) and the two callback registrations (lines
106-117). -/
def initMQTTClientOptions (c : MQTTConfig) (fs : TLSOracle) :
    Except String ClientOptions :=
  (tlsConfigResult c fs).map fun tlsFinal =>
    { credentialOptions c with
      brokers := [getProtocol c ++ "://" ++ c.host ++ ":" ++ toString c.port]
      tls := tlsFinal
      clientID := c.clientID
      cleanSession := !c.persistent
      orderMatters := c.order
      keepAliveSec := c.keepAliveSec
      pingTimeoutSec := c.pingTimeoutSec
      autoReconnect := false
      connectionLostHandlerSet := true
      onConnectHandlerSet := true }

/-- What CreateMQTTClient hands back: the constructed client record. The
Go function returns a models.MQTTClient value and nothing else; errors
from initMQTTClientOptions are only written to the logger, recorded here
in loggedErrors. When options construction failed the paho client is
built from a nil options pointer, recorded as opts = none. -/
structure MQTTClient where
  config : MQTTConfig
  opts : Option ClientOptions
  loggedErrors : List String
  deriving DecidableEq, Repr

/-- CreateMQTTClient (mqtt.go lines 121-151): builds the client struct
from the configuration, calls initMQTTClientOptions, logs (and otherwise
ignores) any error it returns, then constructs the paho client and
returns the wrapper in every case. -/
def CreateMQTTClient (c : MQTTConfig) (fs : TLSOracle) : MQTTClient :=
  match initMQTTClientOptions c fs with
  | Except.ok opts => { config := c, opts := some opts, loggedErrors := [] }
  | Except.error e =>
    { config := c
      opts := none
      loggedErrors := ["unable to configure MQTT client: " ++ e] }

/-- A paho token as the transport reports it back: whether the operation
completed and the error it carries, if any. -/
structure Token where
  completed : Bool
  tokenError : Option String
  deriving DecidableEq, Repr

/-- One call of the transport's publish primitive as issued by the Go
code: client.Publish(topic, qos, retained, payload). -/
structure PublishCall where
  topic : String
  qos : Nat
  retained : Bool
  payload : String
  deriving DecidableEq, Repr

/-- Caller-observable effect of MQTT.Publish: the transport call it
issued, whether it blocked on token.Wait(), and whether it scheduled a
retry. The Go function has no return value, so nothing else is
observable by the caller. -/
structure PublishEffect where
  call : PublishCall
  waited : Bool
  retryScheduled : Bool
  deriving DecidableEq, Repr

/-- Publish (mqtt.go lines 183-186): token := client.Publish(topic, qos,
false, message); token.Wait(). The token produced by the transport is an
input; the function never reads token.Error() and returns nothing. -/
def Publish (tok : Token) (topic message : String) (qos : Nat) : PublishEffect :=
  { call := { topic := topic, qos := qos, retained := false, payload := message }
    waited := true
    retryScheduled := false }

/-- A topic entry from the server's topic list: path pattern and an
opaque handler identifier. -/
structure Topic where
  path : String
  handler : Nat
  deriving DecidableEq, Repr

/-- An inbound transport message: topic string and payload bytes. -/
structure Message where
  topic : String
  payload : List Nat
  deriving DecidableEq, Repr

/-- One handler invocation as produced by the message callback installed
at mqtt.go lines 174-176: which handler runs, the four arguments it
receives, and whether it was scheduled as an independent goroutine. -/
structure Dispatch where
  handler : Nat
  apiArg : Nat
  prefixArg : String
  topicArg : String
  payloadArg : List Nat
  async : Bool
  deriving DecidableEq, Repr

/-- The paho message callback closure built inside subscribe (mqtt.go
lines 174-176): go topic.Handler(m.api, m.prefix, msg.Topic(),
msg.Payload()). api is the opaque m.api reference, pre the client's
topic-root string. -/
def messageCallback (api : Nat) (pre : String) (t : Topic) (msg : Message) : Dispatch :=
  { handler := t.handler
    apiArg := api
    prefixArg := pre
    topicArg := msg.topic
    payloadArg := msg.payload
    async := true }

/-- Trace of one run of MQTT.subscribe: the subscribe calls issued in
order (by topic path), the token errors written to the logger, and how
many reconnect procedures were triggered from inside the loop. -/
structure SubscribeTrace where
  attempted : List String
  logged : List String
  reconnectsTriggered : Nat
  deriving DecidableEq, Repr

/-- subscribe (mqtt.go lines 166-180): iterate the topic list in order;
for each topic call client.Subscribe and wait on the token; when the
token carries an error, log it and continue with the next topic. subErr
is the transport oracle giving each Subscribe call's token error, if
any. No branch of the loop body calls connect or retryConnect. -/
def subscribe (topics : List Topic) (qos : Nat) (subErr : String → Option String) :
    SubscribeTrace :=
  match topics with
  | [] => { attempted := [], logged := [], reconnectsTriggered := 0 }
  | t :: ts =>
    let rest := subscribe ts qos subErr
    match subErr t.path with
    | some e =>
      { attempted := t.path :: rest.attempted
        logged := e :: rest.logged
        reconnectsTriggered := rest.reconnectsTriggered }
    | none =>
      { attempted := t.path :: rest.attempted
        logged := rest.logged
        reconnectsTriggered := rest.reconnectsTriggered }

/-- The resubscription condition of connectHandler (mqtt.go line 222):
!m.disconnected || (m.disconnected && !m.persistent) || !hasSession. -/
def shouldResubscribe (disconnected persistent hasSession : Bool) : Bool :=
  !disconnected || (disconnected && !persistent) || !hasSession

/-- connectHandler (mqtt.go lines 216-227): on the transport's OnConnect
callback, read hasSession from the connect token, call subscribe exactly
when shouldResubscribe holds, then clear the disconnected flag. Returns
the new disconnected flag and the subscribe trace ([] when subscribe was
not called). -/
def connectHandler (disconnected persistent hasSession : Bool) (topics : List Topic)
    (qos : Nat) (subErr : String → Option String) : Bool × SubscribeTrace :=
  (false,
    if shouldResubscribe disconnected persistent hasSession then
      subscribe topics qos subErr
    else { attempted := [], logged := [], reconnectsTriggered := 0 })

/-- Mutable client state of the reconnect machinery: the two Go booleans
connecting and disconnected (mqtt.go lines 36-37), the transport's
connection status (client.IsConnected), the number of retry tickers
started by retryConnect and not yet stopped, and how many ticker
iterations have executed their m.connect() call but not yet the
following IsConnected check (the two statements of the goroutine body at
mqtt.go lines 206-211). -/
structure ClientState where
  connecting : Bool
  disconnected : Bool
  connected : Bool
  tickers : Nat
  midTick : Nat
  deriving DecidableEq, Repr

/-- Go zero-value state of a freshly constructed MQTT struct: both flags
false, not connected, no tickers. -/
def mqttInit : ClientState :=
  { connecting := false, disconnected := false, connected := false
    tickers := 0, midTick := 0 }

/-- retryConnect (mqtt.go lines 201-214): unconditionally set connecting
and start a new 5-second ticker whose goroutine drives further
tickConnect/tickCheck events. There is no guard on the connecting flag
inside this function. -/
def retryConnect (s : ClientState) : ClientState :=
  { s with connecting := true, tickers := s.tickers + 1 }

/-- connect (mqtt.go lines 188-196) together with the OnConnect callback
it triggers on success: when the connect token succeeds the transport is
connected and connectHandler clears the disconnected flag; when it fails
and the connecting flag is clear, retryConnect is called; when it fails
with connecting already set, nothing happens. ok is the transport's
connect outcome. -/
def connect (ok : Bool) (s : ClientState) : ClientState :=
  if ok then { s with connected := true, disconnected := false }
  else if s.connecting then s else retryConnect s

/-- connectionLostHandler (mqtt.go lines 230-234): set disconnected and
call retryConnect unconditionally. The transport invokes it only after
an established connection has dropped. -/
def connectionLostHandler (s : ClientState) : ClientState :=
  retryConnect { s with disconnected := true }

/-- Stop (mqtt.go lines 162-164): client.Disconnect(500) tears down the
transport connection after a 500 ms grace period. It touches neither the
connecting flag nor any ticker. -/
def Stop (s : ClientState) : ClientState :=
  { s with connected := false }

/-- Atomic events of the lifecycle: the Start-path connect call with its
transport outcome, the connection-lost callback, a retry-ticker
iteration's connect call with its outcome, that iteration's IsConnected
check, and a Stop call. -/
inductive Event where
  | startConnect (ok : Bool)
  | connLost
  | tickConnect (ok : Bool)
  | tickCheck
  | stopCall
  deriving DecidableEq, Repr

/-- Whether an event is the connection-lost callback. -/
def isConnLost : Event → Bool
  | Event.connLost => true
  | _ => false

/-- One event step. connLost is enabled only on an established connection
(the transport fires it only then) and the connection is already gone
when the handler runs. tickConnect is enabled when some live ticker is
not mid-iteration; it runs m.connect() (mqtt.go line 207). tickCheck is
that iteration's second statement (lines 208-211): when IsConnected, the
iteration stops its own ticker and clears connecting, otherwise it does
nothing. Returns none when the event is not enabled. -/
def applyEvent : Event → ClientState → Option ClientState
  | Event.startConnect ok, s => some (connect ok s)
  | Event.connLost, s =>
    if s.connected then some (connectionLostHandler { s with connected := false })
    else none
  | Event.tickConnect ok, s =>
    if s.midTick < s.tickers then
      some (connect ok { s with midTick := s.midTick + 1 })
    else none
  | Event.tickCheck, s =>
    if s.midTick = 0 then none
    else if s.connected then
      some { s with midTick := s.midTick - 1, tickers := s.tickers - 1
                    connecting := false }
    else some { s with midTick := s.midTick - 1 }
  | Event.stopCall, s => some (Stop s)

/-- Run a sequence of events from a state; none when some event in the
sequence is not enabled. -/
def run : ClientState → List Event → Option ClientState
  | s, [] => some s
  | s, e :: es => Option.bind (applyEvent e s) (fun s1 => run s1 es)

/-- Holds when every connection-lost callback in the event sequence is
delivered in a state with no live retry ticker, i.e. losses never race a
running retry cycle. -/
def connLostSafe : ClientState → List Event → Bool
  | _, [] => true
  | s, e :: es =>
    (!isConnLost e || s.tickers == 0) &&
      (match applyEvent e s with
       | some s1 => connLostSafe s1 es
       | none => true)

/-- Supervisor invariant: at most one live retry ticker, the connecting
flag tracks exactly whether a ticker is live, and no more iterations are
mid-flight than there are tickers. -/
def armInv (s : ClientState) : Prop :=
  s.tickers ≤ 1 ∧ (s.connecting = true ↔ s.tickers = 1) ∧ s.midTick ≤ s.tickers

/-- Concrete configuration with no TLS material configured. -/
def cfg0 : MQTTConfig :=
  { host := "localhost", port := 1883, prefixStr := "GOST", clientID := "gost-client"
    sslEnabled := false, username := "", password := "", caCertPath := ""
    clientCertPath := "", privateKeyPath := "", keepAliveSec := 300
    pingTimeoutSec := 20, subscriptionQos := 0, persistent := false, order := false }

/-- Oracle on which every file-system and TLS call succeeds. -/
def fsOk : TLSOracle :=
  { readFile := fun _ => Except.ok [48]
    loadKeyPair := fun _ _ => Except.ok 7
    parseCert := fun _ => Except.ok 7 }

/-- Configuration with a client certificate/key pair configured. -/
def cfgCert : MQTTConfig :=
  { cfg0 with clientCertPath := "client.crt", privateKeyPath := "client.key" }

/-- Oracle on which loading the client keypair fails. -/
def fsKeyFail : TLSOracle :=
  { readFile := fun _ => Except.ok [48]
    loadKeyPair := fun _ _ => Except.error "open client.crt: no such file"
    parseCert := fun _ => Except.ok 7 }

/-- Configuration with a trust-anchor (CA certificate) path configured. -/
def cfgCA : MQTTConfig :=
  { cfg0 with caCertPath := "ca.pem" }

/-- Oracle on which reading the trust-anchor file fails. -/
def fsCAFail : TLSOracle :=
  { readFile := fun _ => Except.error "open ca.pem: no such file"
    loadKeyPair := fun _ _ => Except.ok 7
    parseCert := fun _ => Except.ok 7 }

/-- Claim C2: on every transition into Connected, subscriptions are
reissued if and only if this is the first-ever connect (no prior
disconnect observed), or a prior disconnect occurred while the
persistence flag is disabled, or the broker reports no prior session;
in the remaining case (persistence enabled and hasSession = true after
a prior disconnect) no subscribe calls are issued. -/
theorem connectHandler_resubscription_policy (d p h : Bool) (topics : List Topic)
    (qos : Nat) (subErr : String → Option String) :
    (shouldResubscribe d p h = true ↔ (d = false ∨ (d = true ∧ p = false) ∨ h = false)) ∧
    (d = true → p = true → h = true →
      (connectHandler d p h topics qos subErr).2.attempted = []) ∧
    (shouldResubscribe d p h = true →
      (connectHandler d p h topics qos subErr).2 = subscribe topics qos subErr) := by
  refine ⟨by cases d <;> cases p <;> cases h <;> decide, ?_, ?_⟩
  · intro hd hp hh
    subst hd; subst hp; subst hh
    simp [connectHandler, shouldResubscribe]
  · intro hcond
    simp [connectHandler, hcond]

/-- Claim C2 witness: with a prior disconnect, persistence enabled and a
session present, no subscribe call is issued; with no prior disconnect
the full subscribe run is issued. -/
theorem connectHandler_resubscription_policy_witness :
    (connectHandler true true true [{ path := "sensors", handler := 1 }] 0
        (fun _ => none)).2.attempted = [] ∧
    (connectHandler false true true [{ path := "sensors", handler := 1 }] 0
        (fun _ => none)).2 =
      subscribe [{ path := "sensors", handler := 1 }] 0 (fun _ => none) :=
  ⟨(connectHandler_resubscription_policy true true true
      [{ path := "sensors", handler := 1 }] 0 (fun _ => none)).2.1 rfl rfl rfl,
   (connectHandler_resubscription_policy false true true
      [{ path := "sensors", handler := 1 }] 0 (fun _ => none)).2.2 rfl⟩

/-- Claim C7: subscribe iterates the topic list in its configured order
and issues each subscribe call independently: for every topic list and
every pattern of per-topic failures, every topic is attempted in order,
exactly the failing topics are logged, and no reconnect is triggered. -/
theorem subscribe_partial_failure_tolerant (topics : List Topic) (qos : Nat)
    (subErr : String → Option String) :
    (subscribe topics qos subErr).attempted = topics.map Topic.path ∧
    (subscribe topics qos subErr).logged = topics.filterMap (fun t => subErr t.path) ∧
    (subscribe topics qos subErr).reconnectsTriggered = 0 := by
  induction topics with
  | nil => exact ⟨rfl, rfl, rfl⟩
  | cons t ts ih =>
    obtain ⟨h1, h2, h3⟩ := ih
    cases he : subErr t.path <;>
      simp [subscribe, he, h1, h2, h3]

/-- Claim C8: for every inbound message on a subscribed topic, the
dispatch closure invokes that topic's configured handler with the
connection context (m.api), the client's path-prefix context (m.prefix),
the message's topic string and the message payload, all passed through
unmodified, as an independently scheduled unit of work (a goroutine). -/
theorem dispatch_passthrough (api : Nat) (pre : String) (t : Topic) (msg : Message) :
    (messageCallback api pre t msg).handler = t.handler ∧
    (messageCallback api pre t msg).apiArg = api ∧
    (messageCallback api pre t msg).prefixArg = pre ∧
    (messageCallback api pre t msg).topicArg = msg.topic ∧
    (messageCallback api pre t msg).payloadArg = msg.payload ∧
    (messageCallback api pre t msg).async = true :=
  ⟨rfl, rfl, rfl, rfl, rfl, rfl⟩

/-- Claim C5 counterexample: Publish produces the identical
caller-observable effect whether the transport token reports failure or
success, so no success/failure result is returned to the caller (the Go
function has no return value and never reads token.Error()). -/
theorem publish_failure_invisible_cex :
    Publish { completed := true, tokenError := some "connection refused" } "t" "m" 1 =
      Publish { completed := true, tokenError := none } "t" "m" 1 := rfl

/-- Claim C5 (amended): Publish forwards to the transport's publish
primitive and blocks on token.Wait(), schedules no retry, and returns no
success/failure result: its effect is independent of the token the
transport hands back. -/
theorem publish_blocks_no_result_no_retry (tok : Token) (topic message : String)
    (qos : Nat) :
    (Publish tok topic message qos).waited = true ∧
    (Publish tok topic message qos).retryScheduled = false ∧
    Publish tok topic message qos =
      Publish { completed := true, tokenError := none } topic message qos :=
  ⟨rfl, rfl, rfl⟩

/-- Claim C10: for every call to Publish, the message handed to the
transport's publish primitive carries retain = false; the Publish
signature (topic, payload, qos) exposes no retain parameter. -/
theorem publish_retain_always_false (tok : Token) (topic message : String) (qos : Nat) :
    (Publish tok topic message qos).call =
      { topic := topic, qos := qos, retained := false, payload := message } := rfl

/-- Claim C4 counterexample: with a client certificate/key pair
configured whose loading fails, CreateMQTTClient still returns a fully
constructed client; the failure is only written to the logger (and the
paho client is built from a nil options pointer). Neither
CreateMQTTClient nor Start has an error return in the Go code, so no
error reaches the caller. -/
theorem keypair_error_construction_proceeds_cex :
    (CreateMQTTClient cfgCert fsKeyFail).loggedErrors =
      ["unable to configure MQTT client: error loading client keypair: open client.crt: no such file"] ∧
    (CreateMQTTClient cfgCert fsKeyFail).opts = none := by
  constructor <;> rfl

/-- Helper: when both certificate paths are configured and the keypair
load fails, the TLS section returns the formatted load error. -/
theorem tlsConfigResult_keypair_load_error (c : MQTTConfig) (fs : TLSOracle)
    (e : String) (h1 : c.clientCertPath ≠ "") (h2 : c.privateKeyPath ≠ "")
    (h3 : fs.loadKeyPair c.clientCertPath c.privateKeyPath = Except.error e) :
    tlsConfigResult c fs = Except.error ("error loading client keypair: " ++ e) := by
  unfold tlsConfigResult
  rw [if_pos ⟨h1, h2⟩, h3]

/-- Claim C4 (amended): a client-certificate/key load failure makes
initMQTTClientOptions return an error, but CreateMQTTClient only logs
that error and proceeds: it constructs and returns the client (with a
nil options pointer), and no error is surfaced to the caller of Start. -/
theorem keypair_error_logged_not_surfaced (c : MQTTConfig) (fs : TLSOracle)
    (e : String) :
    (c.clientCertPath ≠ "" → c.privateKeyPath ≠ "" →
      fs.loadKeyPair c.clientCertPath c.privateKeyPath = Except.error e →
      initMQTTClientOptions c fs =
        Except.error ("error loading client keypair: " ++ e)) ∧
    (initMQTTClientOptions c fs = Except.error e →
      CreateMQTTClient c fs =
        { config := c, opts := none
          loggedErrors := ["unable to configure MQTT client: " ++ e] }) := by
  constructor
  · intro h1 h2 h3
    unfold initMQTTClientOptions
    rw [tlsConfigResult_keypair_load_error c fs e h1 h2 h3]
    rfl
  · intro h
    unfold CreateMQTTClient
    rw [h]

/-- Claim C4 witness: the amended behavior at a concrete failing
configuration. -/
theorem keypair_error_logged_not_surfaced_witness :
    initMQTTClientOptions cfgCert fsKeyFail =
      Except.error "error loading client keypair: open client.crt: no such file" ∧
    CreateMQTTClient cfgCert fsKeyFail =
      { config := cfgCert, opts := none
        loggedErrors := ["unable to configure MQTT client: error loading client keypair: open client.crt: no such file"] } :=
  ⟨(keypair_error_logged_not_surfaced cfgCert fsKeyFail
      "open client.crt: no such file").1 (by decide) (by decide) rfl,
   (keypair_error_logged_not_surfaced cfgCert fsKeyFail
      "error loading client keypair: open client.crt: no such file").2 rfl⟩

/-- True exactly when options construction returned without an error. -/
def optionsBuilt : Except String ClientOptions → Bool
  | Except.ok _ => true
  | Except.error _ => false

/-- Claim C6 counterexample: with a trust-anchor path configured and its
file unreadable, initMQTTClientOptions succeeds anyway — construction is
not aborted and no error is reported, refuting the fatal-abort claim. -/
theorem ca_read_failure_no_abort_cex :
    optionsBuilt (initMQTTClientOptions cfgCA fsCAFail) = true := rfl

/-- Claim C6 (amended): when a trust-anchor path is configured and
reading the file fails, the failure is silently ignored: a fresh empty
certificate pool is installed, no certificates are appended, and options
construction completes without error (stated here with no client
keypair configured, so that no unrelated error can occur). -/
theorem ca_read_failure_ignored (c : MQTTConfig) (fs : TLSOracle) (e : String)
    (hca : c.caCertPath ≠ "") (hread : fs.readFile c.caCertPath = Except.error e)
    (hcert : c.clientCertPath = "") :
    (initMQTTClientOptions c fs).map (fun o => (o.tls.rootCAsSet, o.tls.rootCAs)) =
      Except.ok (true, []) := by
  have hpool : caPoolConfig c fs =
      { rootCAsSet := true, rootCAs := [], certificates := [] } := by
    unfold caPoolConfig
    rw [if_pos hca, hread]
  have htls : tlsConfigResult c fs =
      Except.ok { rootCAsSet := true, rootCAs := [], certificates := [] } := by
    unfold tlsConfigResult
    rw [if_neg (by simp [hcert]), hpool]
  unfold initMQTTClientOptions
  rw [htls]
  rfl

/-- Claim C6 witness: the amended behavior at a concrete configuration
with an unreadable trust-anchor file. -/
theorem ca_read_failure_ignored_witness :
    (initMQTTClientOptions cfgCA fsCAFail).map
        (fun o => (o.tls.rootCAsSet, o.tls.rootCAs)) = Except.ok (true, []) :=
  ca_read_failure_ignored cfgCA fsCAFail "open ca.pem: no such file"
    (by decide) rfl rfl

/-- Claim C9: every client returned by CreateMQTTClient with a usable
options object has the transport's automatic reconnection disabled
(SetAutoReconnect(false)) and both the connection-lost and on-connect
callbacks registered, so the manager's own retry loop (armed from the
connection-lost callback and the connect-failure path) is the only
reconnection mechanism. -/
theorem client_autoReconnect_disabled (c : MQTTConfig) (fs : TLSOracle)
    (o : ClientOptions) (h : (CreateMQTTClient c fs).opts = some o) :
    o.autoReconnect = false ∧ o.connectionLostHandlerSet = true ∧
      o.onConnectHandlerSet = true := by
  unfold CreateMQTTClient at h
  cases hinit : initMQTTClientOptions c fs with
  | error e => rw [hinit] at h; cases h
  | ok opts =>
    rw [hinit] at h
    have ho : opts = o := by
      simpa using h
    unfold initMQTTClientOptions at hinit
    cases htls : tlsConfigResult c fs with
    | error e => rw [htls] at hinit; cases hinit
    | ok t =>
      rw [htls] at hinit
      have : ({ credentialOptions c with
          brokers := [getProtocol c ++ "://" ++ c.host ++ ":" ++ toString c.port]
          tls := t
          clientID := c.clientID
          cleanSession := !c.persistent
          orderMatters := c.order
          keepAliveSec := c.keepAliveSec
          pingTimeoutSec := c.pingTimeoutSec
          autoReconnect := false
          connectionLostHandlerSet := true
          onConnectHandlerSet := true } : ClientOptions) = opts := by
        simpa [Except.map] using hinit
      rw [← ho, ← this]
      exact ⟨rfl, rfl, rfl⟩

/-- Claim C9 witness: a concretely constructed client has automatic
reconnection disabled and both callbacks registered. -/
theorem client_autoReconnect_disabled_witness :
    (CreateMQTTClient cfg0 fsOk).opts.map ClientOptions.autoReconnect = some false := by
  cases hopt : (CreateMQTTClient cfg0 fsOk).opts with
  | none => cases hopt
  | some o =>
    have := (client_autoReconnect_disabled cfg0 fsOk o hopt).1
    simp [this]

/-- Helper: one enabled event preserves the supervisor invariant,
provided a connection-lost callback is only delivered while no retry
ticker is live. -/
theorem armInv_applyEvent {e : Event} {s s1 : ClientState} (hs : armInv s)
    (hcl : isConnLost e = true → s.tickers = 0)
    (h : applyEvent e s = some s1) : armInv s1 := by
  obtain ⟨cn, d, co, tk, mt⟩ := s
  obtain ⟨ht, hc, hm⟩ := hs
  simp only at ht hc hm
  cases e with
  | startConnect ok =>
    simp only [applyEvent, Option.some.injEq] at h
    subst h
    unfold connect retryConnect
    cases ok with
    | true =>
      simp only [if_true]
      exact ⟨ht, hc, hm⟩
    | false =>
      simp only [Bool.false_eq_true, if_false]
      cases cn with
      | true => simp only [if_true]; exact ⟨ht, hc, hm⟩
      | false =>
        have htk : tk = 0 := by
          rcases Nat.lt_or_ge tk 1 with h0 | h0
          · omega
          · exact absurd (hc.mpr (by omega)) (by simp)
        simp only [Bool.false_eq_true, if_false]
        subst htk
        unfold armInv
        dsimp only
        exact ⟨by omega, by simp, by omega⟩
  | connLost =>
    have htk : tk = 0 := hcl rfl
    simp only [applyEvent] at h
    subst htk
    cases co with
    | false => simp at h
    | true =>
      simp only [if_true, Option.some.injEq] at h
      subst h
      unfold connectionLostHandler retryConnect armInv
      dsimp only
      exact ⟨by omega, by simp, by omega⟩
  | tickConnect ok =>
    simp only [applyEvent] at h
    by_cases hlt : mt < tk
    · rw [if_pos hlt] at h
      have htk : tk = 1 := by omega
      have hmtz : mt = 0 := by omega
      have hcn : cn = true := hc.mpr htk
      subst htk
      subst hmtz
      subst hcn
      simp only [Option.some.injEq] at h
      subst h
      unfold connect retryConnect armInv
      cases ok with
      | true =>
        simp only [if_true]
        exact ⟨by omega, by simp, by omega⟩
      | false =>
        simp only [Bool.false_eq_true, if_false, if_true]
        exact ⟨by omega, by simp, by omega⟩
    · rw [if_neg hlt] at h
      cases h
  | tickCheck =>
    simp only [applyEvent] at h
    by_cases hmt : mt = 0
    · rw [if_pos hmt] at h; cases h
    · rw [if_neg hmt] at h
      cases co with
      | true =>
        simp only [if_true, Option.some.injEq] at h
        subst h
        unfold armInv
        dsimp only
        refine ⟨by omega, ?_, by omega⟩
        simp only [Bool.false_eq_true, false_iff]
        omega
      | false =>
        simp only [Bool.false_eq_true, if_false, Option.some.injEq] at h
        subst h
        unfold armInv
        dsimp only
        exact ⟨ht, hc, by omega⟩
  | stopCall =>
    simp only [applyEvent, Option.some.injEq] at h
    subst h
    unfold Stop
    exact ⟨ht, hc, hm⟩

/-- Helper: running any event sequence whose connection-lost callbacks
are delivered only while no retry cycle is live preserves the supervisor
invariant. -/
theorem connLostSafe_run_armInv (tr : List Event) :
    ∀ (s s1 : ClientState), armInv s → connLostSafe s tr = true →
      run s tr = some s1 → armInv s1 := by
  induction tr with
  | nil =>
    intro s s1 hs _ hr
    simp only [run, Option.some.injEq] at hr
    subst hr
    exact hs
  | cons e es ih =>
    intro s s1 hs hsafe hr
    simp only [run] at hr
    simp only [connLostSafe, Bool.and_eq_true, Bool.or_eq_true] at hsafe
    obtain ⟨hguard, hrest⟩ := hsafe
    cases happ : applyEvent e s with
    | none => rw [happ] at hr; cases hr
    | some s2 =>
      rw [happ] at hr hrest
      simp only [Option.bind] at hr
      have h2 : armInv s2 := by
        refine armInv_applyEvent hs ?_ happ
        intro hcl
        rcases hguard with hg | hg
        · rw [hcl] at hg; cases hg
        · simpa using hg
      exact ih s2 s1 h2 hrest hr

/-- Claim C1 counterexample: after the concrete event sequence "initial
connect fails (arming the supervisor), a ticker iteration reconnects
successfully, and the connection-lost callback fires before that
iteration reaches its IsConnected check", two retry tickers are live at
once: connectionLostHandler calls retryConnect unconditionally, and
retryConnect itself carries no guard on the connecting flag, so arming
while a cycle is active is not a no-op. -/
theorem duplicate_retry_cycle_cex :
    (run mqttInit [Event.startConnect false, Event.tickConnect true,
        Event.connLost]).map ClientState.tickers = some 2 := rfl

/-- Claim C1 (amended): the connect-failure path's arm request while a
cycle is active is a no-op (connect is guarded by the connecting flag);
if every connection-lost callback is delivered while no retry cycle is
live, then at most one retry ticker is ever live and the connecting flag
is set exactly while one is; and the iteration step of a successful
reconnect disarms exactly once, stopping its ticker and clearing the
flag. -/
theorem retry_cycle_at_most_one :
    (∀ s : ClientState, s.connecting = true →
      applyEvent (Event.startConnect false) s = some s) ∧
    (∀ (tr : List Event) (s1 : ClientState), connLostSafe mqttInit tr = true →
      run mqttInit tr = some s1 →
      s1.tickers ≤ 1 ∧ (s1.connecting = true ↔ s1.tickers = 1)) ∧
    (∀ s : ClientState, s.midTick ≠ 0 → s.connected = true →
      applyEvent Event.tickCheck s =
        some { s with midTick := s.midTick - 1, tickers := s.tickers - 1
                      connecting := false }) := by
  refine ⟨?_, ?_, ?_⟩
  · intro s hcn
    simp only [applyEvent, connect, Bool.false_eq_true, if_false, hcn, if_true]
  · intro tr s1 hsafe hr
    have h := connLostSafe_run_armInv tr mqttInit s1
      (⟨by decide, by decide, by decide⟩ : armInv mqttInit) hsafe hr
    exact ⟨h.1, h.2.1⟩
  · intro s hmt hco
    simp only [applyEvent, if_neg hmt, hco, if_true]

/-- Claim C1 witness: the three amended properties at concrete inputs —
a no-op re-arm on an armed state, a loss-free trace ending with at most
one ticker, and a concrete disarming check step. -/
theorem retry_cycle_at_most_one_witness :
    applyEvent (Event.startConnect false)
        { connecting := true, disconnected := false, connected := false
          tickers := 1, midTick := 0 } =
      some { connecting := true, disconnected := false, connected := false
             tickers := 1, midTick := 0 } ∧
    ClientState.tickers { connecting := false, disconnected := false
                          connected := true, tickers := 0, midTick := 0 } ≤ 1 ∧
    applyEvent Event.tickCheck
        { connecting := true, disconnected := false, connected := true
          tickers := 1, midTick := 1 } =
      some { connecting := false, disconnected := false, connected := true
             tickers := 0, midTick := 0 } :=
  ⟨retry_cycle_at_most_one.1
      { connecting := true, disconnected := false, connected := false
        tickers := 1, midTick := 0 } rfl,
   (retry_cycle_at_most_one.2.1
      [Event.startConnect false, Event.tickConnect true, Event.tickCheck]
      { connecting := false, disconnected := false, connected := true
        tickers := 0, midTick := 0 } (by decide) (by decide)).1,
   retry_cycle_at_most_one.2.2
      { connecting := true, disconnected := false, connected := true
        tickers := 1, midTick := 1 } (by decide) rfl⟩

/-- Claim C3 counterexample: Stop called while a retry ticker is pending
does not cancel it — after the concrete sequence "initial connect fails
(arming a ticker), Stop is called, the pending ticker ticks and
reconnects", the ticker is still live, the supervisor is still armed and
the client is connected again, refuting immediate cancellation, the
disarm, and the terminal Stopped state. -/
theorem stop_does_not_cancel_retry_cex :
    (run mqttInit [Event.startConnect false, Event.stopCall,
        Event.tickConnect true]).map
      (fun s => (s.tickers, s.connecting, s.connected)) =
      some (1, true, true) := rfl

/-- Claim C3 (amended): Stop only issues the transport disconnect with
its 500 ms grace period; it neither stops any pending retry ticker nor
clears the connecting flag nor touches any other field, so pending
retries survive Stop and there is no terminal Stopped state. -/
theorem Stop_disconnect_only (s : ClientState) :
    (Stop s).connected = false ∧ (Stop s).tickers = s.tickers ∧
    (Stop s).connecting = s.connecting ∧ (Stop s).midTick = s.midTick ∧
    (Stop s).disconnected = s.disconnected :=
  ⟨rfl, rfl, rfl, rfl, rfl⟩

end IoTGoMQTT
